import Mathlib

/-!
Verification of the TDTpy DSP ring-buffer layer (`tdt/dsp_buffer.py` and the
utility helpers in `util.py`).  The Python classes are embedded shallowly:

* numpy dtypes become the inductive `NPDType`;
* the circuit / ActiveX interface (an external collaborator: scalar tag
  get/set, `GetTagSize`, `ReadTagVEX`, `WriteTagV`, trigger) becomes the
  structure `Circuit`, whose mutable register file is a `String → Int` map
  updated functionally;
* `DSPBuffer.__init__` becomes `dspBufferInit`, returning
  `Except InitError (Circuit × DSPBuf)` (the circuit is threaded because the
  constructor may write the decimation tag);
* Python `round` (banker's rounding) is modelled exactly by `pyRound`;
* fallible paths return `Except`.

The abstract ring-buffer driver (`tdt/abstract_ring_buffer.py`) is imported by
`dsp_buffer.py` but its source is not part of this tree; the read/write
overrun logic is modelled from the specification where noted.
-/

namespace TDTpy

/-- Numpy dtypes that appear in the TDTpy data path (`src_type` / `dest_type`
arguments of `DSPBuffer.__init__`). -/
inductive NPDType where
  | int8
  | int16
  | int32
  | float32
  | float64
deriving DecidableEq, Repr

/-- `np.nbytes[dtype]`: element size in bytes. -/
def NPDType.nbytes : NPDType → Nat
  | .int8 => 1
  | .int16 => 2
  | .int32 => 4
  | .float32 => 4
  | .float64 => 8

/-- `np.issubdtype(data_type, np.int)`. -/
def NPDType.isIntType : NPDType → Bool
  | .int8 => true
  | .int16 => true
  | .int32 => true
  | .float32 => false
  | .float64 => false

/-- `util.dtype_to_type_str`: convert a numpy dtype to TDT's type string
(`I8`, `I16`, `I32` or `F32`); any other result is rejected. -/
def dtype_to_type_str (data_type : NPDType) : Except String String :=
  let type_code := if data_type.isIntType then "I" else "F"
  let type_str := type_code ++ toString (data_type.nbytes * 8)
  if type_str = "F32" ∨ type_str = "I32" ∨ type_str = "I16" ∨ type_str = "I8" then
    Except.ok type_str
  else
    Except.error "Unsupported dtype"

/-- `util.resolution`: resolution of an integer data type under a scaling
factor (`1/float(scaling_factor)`); float data types raise. -/
def resolutionOf (data_type : NPDType) (scaling_factor : Int) : Except String ℚ :=
  if data_type.isIntType then Except.ok (1 / (scaling_factor : ℚ))
  else Except.error "Float data types not supported"

/-- `np.finfo(dtype).resolution` for the float dtypes (only reached on the
float fallback path of `DSPBuffer.__init__`; integer dtypes never ask for
it). -/
def finfoResolution : NPDType → ℚ
  | .float32 => 1 / 1000000
  | .float64 => 1 / 1000000000000000
  | _ => 0

/-- Python 3 `round(a / b)` for an integer `a` and a natural `b`: true
division followed by rounding half to even, computed on integers.  `b = 0`
is out of the modelled domain (Python raises `ZeroDivisionError`). -/
def pyRoundDiv (a : ℤ) (b : ℕ) : ℤ :=
  if b = 0 then 0
  else
    let f := Int.fdiv a b
    let r := a - f * b
    if 2 * r < b then f
    else if (b : ℤ) < 2 * r then f + 1
    else if f % 2 = 0 then f else f + 1

/-- When the division is exact, `round(a / b)` is just the quotient, and its
rational value is the exact quotient `a / b`. -/
theorem pyRoundDiv_cast_of_dvd (a : ℤ) (b : ℕ) (h : (b : ℤ) ∣ a) :
    ((pyRoundDiv a b : ℤ) : ℚ) = (a : ℚ) / (b : ℚ) := by
  obtain ⟨k, rfl⟩ := h
  rcases Nat.eq_zero_or_pos b with hb | hb
  · subst hb
    simp [pyRoundDiv]
  · have hb0 : (b : ℤ) ≠ 0 := by positivity
    have hf : Int.fdiv ((b : ℤ) * k) (b : ℤ) = k := Int.mul_fdiv_cancel_left _ hb0
    have hpy : pyRoundDiv ((b : ℤ) * k) b = k := by
      unfold pyRoundDiv
      rw [if_neg (by omega)]
      simp only [hf]
      rw [if_pos (by nlinarith [hb])]
    rw [hpy]
    field_simp

/-- `constants.RCX_BUFFER`: the opaque tag-type code that the RCX metadata
uses to mark circular-buffer tags.  Its concrete value is irrelevant; it only
has to be a distinguished code. -/
def RCX_BUFFER : Nat := 68

/-- Model of the circuit handle together with the external hardware
interface (`circuit` / `circuit._iface` in the Python source).  Scalar
registers hold integers.  `setTagValOk` and `writeTagVOk` are the device's
success acknowledgements for `SetTagVal` and `WriteTagV`; `readTagVEX` is the
raw-transfer oracle. -/
structure Circuit where
  /-- `circuit.tags`: tag name to tag-type code (component `[1]` of the
  metadata tuple). -/
  tags : List (String × Nat)
  /-- Scalar register file backing `circuit.get_tag` / `SetTagVal`. -/
  tagValues : String → Int
  /-- `GetTagSize`: hardware-reported slot capacity of a buffer tag. -/
  tagSizes : String → Nat
  /-- `circuit.fs`: master sampling rate of the device. -/
  fs : ℚ
  /-- Whether `SetTagVal` on a given tag reports success. -/
  setTagValOk : String → Bool
  /-- Whether `WriteTagV` on a given tag reports success. -/
  writeTagVOk : String → Bool
  /-- `ReadTagVEX(tag, offset, length, ...)`: raw channels × length block. -/
  readTagVEX : String → Nat → Nat → List (List ℚ)

/-- `tag in circuit.tags`. -/
def Circuit.hasTag (c : Circuit) (t : String) : Bool :=
  (c.tags.lookup t).isSome

/-- `circuit.tags[tag][1]`. -/
def Circuit.tagType (c : Circuit) (t : String) : Nat :=
  (c.tags.lookup t).getD 0

/-- `circuit.get_tag(tag)`. -/
def Circuit.get_tag (c : Circuit) (t : String) : Int :=
  c.tagValues t

/-- Functional update of the register file (`circuit.set_tag` /
`SetTagVal`). -/
def Circuit.set_tag (c : Circuit) (t : String) (v : Int) : Circuit :=
  { c with tagValues := fun s => if s = t then v else c.tagValues s }

theorem Circuit.get_set_tag (c : Circuit) (t : String) (v : Int) :
    (c.set_tag t v).get_tag t = v := by
  simp [Circuit.set_tag, Circuit.get_tag]

theorem Circuit.set_tag_fs (c : Circuit) (t : String) (v : Int) :
    (c.set_tag t v).fs = c.fs := rfl

/-- Construction-time failures of `DSPBuffer.__init__` (Python `ValueError`
and `DSPError`; both are fatal configuration errors). -/
inductive InitError where
  | valueError (msg : String)
  | dspError (msg : String)
deriving DecidableEq, Repr

/-- `DSPBuffer.find_tag`: locate the companion tag that tracks a feature of
the buffer.  If the caller gave no name, `data_tag ++ suffix` is tried.  A
present tag is returned; a missing tag is an error when required and `none`
otherwise. -/
def find_tag (c : Circuit) (data_tag : String) (tag : Option String)
    (suffix : String) (req : Bool) (name : String) :
    Except InitError (Option String) :=
  if c.hasTag (tag.getD (data_tag ++ suffix)) then
    Except.ok (some (tag.getD (data_tag ++ suffix)))
  else if req then
    Except.error (.valueError (name ++ " tag for " ++ data_tag ++ " must be present in circuit"))
  else Except.ok none

theorem find_tag_req_ok {c : Circuit} {data_tag : String} {tag : Option String}
    {suffix name : String} {o : Option String}
    (h : find_tag c data_tag tag suffix true name = Except.ok o) :
    o = some (tag.getD (data_tag ++ suffix)) ∧
      c.hasTag (tag.getD (data_tag ++ suffix)) = true := by
  unfold find_tag at h
  split at h
  · rename_i hc
    simp only [Except.ok.injEq] at h
    exact ⟨h.symm, hc⟩
  · simp at h

theorem find_tag_opt_found {c : Circuit} {data_tag : String} {tag : Option String}
    {suffix name : String}
    (h : c.hasTag (tag.getD (data_tag ++ suffix)) = true) :
    find_tag c data_tag tag suffix false name =
      Except.ok (some (tag.getD (data_tag ++ suffix))) := by
  unfold find_tag
  rw [if_pos h]

theorem find_tag_opt_missing {c : Circuit} {data_tag : String} {tag : Option String}
    {suffix name : String}
    (h : ¬ c.hasTag (tag.getD (data_tag ++ suffix)) = true) :
    find_tag c data_tag tag suffix false name = Except.ok none := by
  unfold find_tag
  rw [if_neg h]
  rfl

/-- `DSPBuffer.get_tag`: value of an optional feature tag, with a default
when the tag is absent. -/
def get_tag_default (c : Circuit) (tag : Option String) (dflt : Int) : Int :=
  match tag with
  | none => dflt
  | some t => c.get_tag t

/-- The state of a `DSPBuffer` instance: the attribute set produced by
`DSPBuffer.__init__` / `_update_size`, plus the `total_samples_written`
accumulator inherited from the ring-buffer base class. -/
structure DSPBuf where
  data_tag : String
  idx_tag : Option String
  size_tag : Option String
  sf_tag : Option String
  cycle_tag : Option String
  dec_tag : Option String
  channels : Nat
  block_size : Nat
  sf : Int
  dec_factor : Int
  fs : ℚ
  src_type : NPDType
  dest_type : NPDType
  compression : Nat
  vex_src_type : String
  vex_dest_type : String
  resolution : ℚ
  n_slots : ℤ
  n_slots_max : ℤ
  n_samples : ℤ
  n_samples_max : ℤ
  size : ℤ
  size_max : ℤ
  sample_time : ℚ
  max_sample_time : ℚ
  total_samples_written : Nat

/-- `DSPBuffer._update_size`: query the current buffer geometry and derive
slot, sample and per-channel counts.  `n_samples = round(n_slots *
compression)`: both operands are integers, so Python `round` is the
identity on the product.  `size = round(n_samples / channels)`: true
division followed by banker rounding, captured exactly by `pyRoundDiv`. -/
def update_size (c : Circuit) (b : DSPBuf) : DSPBuf :=
  let nSlotsMax : ℤ := (c.tagSizes b.data_tag : ℤ)
  let nSlots : ℤ :=
    match b.size_tag with
    | some t => c.get_tag t
    | none => nSlotsMax
  let nSamples := nSlots * (b.compression : ℤ)
  let nSamplesMax := nSlotsMax * (b.compression : ℤ)
  let sz := pyRoundDiv nSamples b.channels
  let szMax := pyRoundDiv nSamplesMax b.channels
  { b with
    n_slots := nSlots
    n_slots_max := nSlotsMax
    n_samples := nSamples
    n_samples_max := nSamplesMax
    size := sz
    size_max := szMax
    sample_time := (sz : ℚ) / b.fs
    max_sample_time := (szMax : ℚ) / b.fs }

/-- The decimation-factor handling of `DSPBuffer.__init__`: an explicitly
requested factor is written to the decimation tag when one exists; without a
decimation tag any request other than 1 is a fatal configuration error. -/
def initDecStep (c : Circuit) (data_tag : String) (dec_t : Option String)
    (dec_factor : Option Int) : Except InitError Circuit :=
  match dec_factor with
  | none => Except.ok c
  | some d =>
    match dec_t with
    | some t => Except.ok (c.set_tag t d)
    | none =>
      if d ≠ 1 then
        Except.error (.valueError
          ("Decimation tag for " ++ data_tag ++ " must be available to set decimation factor"))
      else Except.ok c

/-- The `try resolution(...) except` block of `DSPBuffer.__init__`: for float
source types the utility raises and the fallback path requires a scaling
factor of 1, falling back to `np.finfo(...).resolution`. -/
def initResolution (src_type : NPDType) (sf : Int) : Except InitError ℚ :=
  match resolutionOf src_type sf with
  | Except.ok r => Except.ok r
  | Except.error _ =>
    if sf ≠ 1 then Except.error (.valueError "FIXME")
    else Except.ok (finfoResolution src_type)

/-- The buffer state assembled by `DSPBuffer.__init__` once the tags are
resolved: the attribute assignments of lines 47-92 of `dsp_buffer.py`
followed by `_update_size`.  `c` is the circuit the scaling factor was read
from (before the decimation write), `c2` the circuit afterwards. -/
def initBuf (c c2 : Circuit) (data_tag : String)
    (idx_t size_t sf_t cycle_t dec_t : Option String)
    (block_size : Nat) (src_type dest_type : NPDType) (channels : Nat) : DSPBuf :=
  update_size c2
    { data_tag := data_tag
      idx_tag := idx_t
      size_tag := size_t
      sf_tag := sf_t
      cycle_tag := cycle_t
      dec_tag := dec_t
      channels := channels
      block_size := block_size
      sf := get_tag_default c sf_t 1
      dec_factor := get_tag_default c2 dec_t 1
      fs := c2.fs / ((get_tag_default c2 dec_t 1 : ℤ) : ℚ)
      src_type := src_type
      dest_type := dest_type
      compression := 4 / src_type.nbytes
      vex_src_type := ""
      vex_dest_type := ""
      resolution := 0
      n_slots := 0
      n_slots_max := 0
      n_samples := 0
      n_samples_max := 0
      size := 0
      size_max := 0
      sample_time := 0
      max_sample_time := 0
      total_samples_written := 0 }

/-- `DSPBuffer.__init__`, ported step for step: validate the data tag,
resolve the companion tags (size and index are required), read the scaling
factor, optionally write the requested decimation factor, derive the
effective sampling rate and compression factor, query the buffer geometry,
convert the dtypes to TDT type strings, compute the resolution, and finally
enforce that the slot count is a multiple of the channel count.  The
(possibly updated) circuit is returned along with the buffer state. -/
def dspBufferInit (c : Circuit) (data_tag : String)
    (idx_tag size_tag sf_tag cycle_tag dec_tag : Option String)
    (block_size : Nat) (src_type dest_type : NPDType) (channels : Nat)
    (dec_factor : Option Int) : Except InitError (Circuit × DSPBuf) :=
  if ¬ c.hasTag data_tag then
    Except.error (.valueError ("Does not have data tag " ++ data_tag))
  else if c.tagType data_tag ≠ RCX_BUFFER then
    Except.error (.valueError ("Tag " ++ data_tag ++ " is not a buffer tag"))
  else
  match find_tag c data_tag size_tag "_n" true "size" with
  | Except.error e => Except.error e
  | Except.ok size_t =>
  match find_tag c data_tag idx_tag "_i" true "index" with
  | Except.error e => Except.error e
  | Except.ok idx_t =>
  match find_tag c data_tag sf_tag "_sf" false "scaling factor" with
  | Except.error e => Except.error e
  | Except.ok sf_t =>
  match find_tag c data_tag cycle_tag "_c" false "cycles" with
  | Except.error e => Except.error e
  | Except.ok cycle_t =>
  match find_tag c data_tag dec_tag "_d" false "decimation" with
  | Except.error e => Except.error e
  | Except.ok dec_t =>
  match initDecStep c data_tag dec_t dec_factor with
  | Except.error e => Except.error e
  | Except.ok c2 =>
  match dtype_to_type_str src_type with
  | Except.error m => Except.error (.valueError m)
  | Except.ok vexSrc =>
  match dtype_to_type_str dest_type with
  | Except.error m => Except.error (.valueError m)
  | Except.ok vexDest =>
  match initResolution src_type (get_tag_default c sf_t 1) with
  | Except.error e => Except.error e
  | Except.ok res =>
  if (initBuf c c2 data_tag idx_t size_t sf_t cycle_t dec_t block_size src_type dest_type channels).n_slots % (channels : ℤ) ≠ 0 then
    Except.error (.dspError "Buffer size must be a multiple of the channel number")
  else
    Except.ok (c2,
      { initBuf c c2 data_tag idx_t size_t sf_t cycle_t dec_t block_size src_type dest_type channels with
        vex_src_type := vexSrc, vex_dest_type := vexDest, resolution := res })

/-- Boolean success test for an `Except` result. -/
def exceptIsOk {ε α : Type} : Except ε α → Bool
  | Except.ok _ => true
  | Except.error _ => false

/-- Extract the payload of a successful `Except` result, with a default for
the error case. -/
def exceptOkD {ε α : Type} (dflt : α) : Except ε α → α
  | Except.ok a => a
  | Except.error _ => dflt

theorem initDecStep_none (c : Circuit) (data_tag : String) (dec_t : Option String) :
    initDecStep c data_tag dec_t none = Except.ok c := rfl

theorem initDecStep_fs {c c2 : Circuit} {data_tag : String} {dec_t : Option String}
    {df : Option Int} (h : initDecStep c data_tag dec_t df = Except.ok c2) :
    c2.fs = c.fs := by
  unfold initDecStep at h
  split at h
  · simp only [Except.ok.injEq] at h
    rw [← h]
  · split at h
    · simp only [Except.ok.injEq] at h
      rw [← h, Circuit.set_tag_fs]
    · split at h
      · simp at h
      · simp only [Except.ok.injEq] at h
        rw [← h]

/-- A dtype accepted by `dtype_to_type_str` yields a compression factor of
1, 2 or 4 (that is, it is not the 8-byte float). -/
theorem compression_of_type_str {t : NPDType} {s : String}
    (h : dtype_to_type_str t = Except.ok s) :
    4 / t.nbytes = 1 ∨ 4 / t.nbytes = 2 ∨ 4 / t.nbytes = 4 := by
  cases t
  case int8 => right; right; rfl
  case int16 => right; left; rfl
  case int32 => left; rfl
  case float32 => left; rfl
  case float64 =>
    simp only [dtype_to_type_str, NPDType.isIntType, NPDType.nbytes] at h
    rw [if_neg (by decide)] at h
    simp at h

/-- Inversion of a successful `DSPBuffer.__init__`: every guard along the
way passed and the resulting buffer is `initBuf` with the vex type strings
and the resolution filled in. -/
theorem dspBufferInit_ok_inv {c : Circuit} {data_tag : String}
    {idx_tag size_tag sf_tag cycle_tag dec_tag : Option String}
    {block_size : Nat} {src_type dest_type : NPDType} {channels : Nat}
    {dec_factor : Option Int} {c2 : Circuit} {b : DSPBuf}
    (hok : dspBufferInit c data_tag idx_tag size_tag sf_tag cycle_tag dec_tag
      block_size src_type dest_type channels dec_factor = Except.ok (c2, b)) :
    ∃ size_t idx_t sf_t cycle_t dec_t vexSrc vexDest res,
      find_tag c data_tag size_tag "_n" true "size" = Except.ok size_t ∧
      find_tag c data_tag idx_tag "_i" true "index" = Except.ok idx_t ∧
      find_tag c data_tag sf_tag "_sf" false "scaling factor" = Except.ok sf_t ∧
      find_tag c data_tag cycle_tag "_c" false "cycles" = Except.ok cycle_t ∧
      find_tag c data_tag dec_tag "_d" false "decimation" = Except.ok dec_t ∧
      initDecStep c data_tag dec_t dec_factor = Except.ok c2 ∧
      dtype_to_type_str src_type = Except.ok vexSrc ∧
      dtype_to_type_str dest_type = Except.ok vexDest ∧
      initResolution src_type (get_tag_default c sf_t 1) = Except.ok res ∧
      (initBuf c c2 data_tag idx_t size_t sf_t cycle_t dec_t block_size src_type dest_type channels).n_slots % (channels : ℤ) = 0 ∧
      b = { initBuf c c2 data_tag idx_t size_t sf_t cycle_t dec_t block_size src_type dest_type channels with
            vex_src_type := vexSrc, vex_dest_type := vexDest, resolution := res } := by
  unfold dspBufferInit at hok
  split at hok
  · simp at hok
  split at hok
  · simp at hok
  split at hok
  · simp at hok
  split at hok
  · simp at hok
  split at hok
  · simp at hok
  split at hok
  · simp at hok
  split at hok
  · simp at hok
  split at hok
  · simp at hok
  split at hok
  · simp at hok
  split at hok
  · simp at hok
  split at hok
  · simp at hok
  split at hok
  · simp at hok
  · simp only [Except.ok.injEq, Prod.mk.injEq] at hok
    obtain ⟨hc2, hb⟩ := hok
    subst hc2
    subst hb
    refine ⟨_, _, _, _, _, _, _, _, ?_, ?_, ?_, ?_, ?_, ?_, ?_, ?_, ?_, ?_, rfl⟩ <;>
      first
        | assumption
        | exact not_ne_iff.mp (by assumption)

/-- A channels × samples data block together with its numpy dtype (the shape
and dtype of the arrays produced by `_read` / `_get_empty_array`). -/
structure Block where
  dtype : NPDType
  rows : List (List ℚ)
deriving DecidableEq, Repr

/-- `ReadableDSPBuffer._read`: a zero-length request returns an empty
channels × 0 array of the destination dtype; otherwise the raw block is
fetched with `ReadTagVEX` and divided by the scaling factor. -/
def readable_read (c : Circuit) (b : DSPBuf) (offset length : Nat) : Block :=
  if length = 0 then
    { dtype := b.dest_type, rows := List.replicate b.channels [] }
  else
    let raw := c.readTagVEX b.data_tag offset length
    { dtype := b.dest_type, rows := raw.map (fun row => row.map (fun x => x / (b.sf : ℚ))) }

/-- Runtime failures of the transfer paths (`DSPError` and
`NotImplementedError` raised after construction). -/
inductive RunError where
  | dspError (msg : String)
  | notImplementedError
deriving DecidableEq, Repr

/-- Overrun failures raised by the ring-buffer driver. -/
inductive RingError where
  | overrun (msg : String)
deriving DecidableEq, Repr

/-- Modelled from the spec: the read side of `AbstractRingBuffer`
(`tdt/abstract_ring_buffer.py` is imported by `dsp_buffer.py` but its source
is not part of this tree).  `loc` is the reader's local cumulative
samples-per-channel position, `hw` the hardware-reported cumulative write
position, `cap` the per-channel capacity.  `delta = hw - loc` is the number
of new samples-per-channel; if `delta > cap` the producer has wrapped past
unread data and the read fails with the unrecoverable overrun error, with the
cursor realigned to the current hardware position; otherwise the window
`[loc, hw)` is transferred through `ReadableDSPBuffer._read` at ring offset
`loc % cap`.  The first component of the result is the new local position. -/
def ringRead (c : Circuit) (b : DSPBuf) (cap loc hw : Nat) :
    Nat × Except RingError Block :=
  let delta : ℤ := (hw : ℤ) - (loc : ℤ)
  if delta > (cap : ℤ) then
    (hw, Except.error (.overrun "Read was too slow and unread samples were overwritten"))
  else
    (hw, Except.ok (readable_read c b (loc % cap) delta.toNat))

/-- Modelled from the spec: the write side of `AbstractRingBuffer`
(`tdt/abstract_ring_buffer.py` is absent from this tree).  `w` is the
writer's cumulative samples-per-channel written, `hw` the hardware's current
cumulative playback position, `n` the length of the new block in
samples-per-channel, `cap` the per-channel capacity.  If the span between
the writer's last write and the hardware's playback position, plus `n`,
exceeds `cap` — `(hw - w) + n > cap` — the device has already replayed stale
memory and the write fails with the unrecoverable overrun error; otherwise
the write succeeds and the local position advances by `n`.  The first
component of the result is the new cumulative written count. -/
def ringWrite (cap w hw n : Nat) : Nat × Except RingError Unit :=
  if (hw : ℤ) - (w : ℤ) + (n : ℤ) > (cap : ℤ) then
    (w, Except.error (.overrun "Write was too slow and old samples were regenerated"))
  else
    (w + n, Except.ok ())

/-- `DSPBuffer.set_size`: write the new size through the size tag (failing
with a `DSPError` when the device rejects the `SetTagVal`) and re-query the
buffer geometry. -/
def set_size (c : Circuit) (b : DSPBuf) (size : ℤ) : Circuit × DSPBuf × Except RunError Unit :=
  let t := b.size_tag.getD ""
  if ¬ c.setTagValOk t then
    (c, b, Except.error (.dspError "Unable to set buffer size"))
  else
    let c2 := c.set_tag t size
    (c2, update_size c2 b, Except.ok ())

/-- Outcome of `WriteableDSPBuffer.set`: the threaded circuit and buffer
state, the raw `WriteTagV` transfer that was issued (offset and data), if
any, and the result. -/
structure SetResult where
  circuit : Circuit
  buf : DSPBuf
  dataWritten : Option (Nat × List ℚ)
  result : Except RunError Unit

/-- Tail of `WriteableDSPBuffer.set` after the size handling: the early
return for an empty block, the float-32 representation check, and the raw
`WriteTagV` transfer at offset 0 with the `total_samples_written`
accumulation. -/
def wbSetRest (c : Circuit) (b : DSPBuf) (data : List ℚ) : SetResult :=
  if data.length = 0 then
    ⟨c, b, none, Except.ok ()⟩
  else if b.vex_src_type ≠ "F32" then
    ⟨c, b, none, Except.error .notImplementedError⟩
  else if ¬ c.writeTagVOk b.data_tag then
    ⟨c, b, some (0, data), Except.error (.dspError "write failed")⟩
  else
    ⟨c, { b with total_samples_written := b.total_samples_written + data.length },
      some (0, data), Except.ok ()⟩

/-- `WriteableDSPBuffer.set`: non-incremental write that starts at index 0.
The block length is validated against `size_max`; with a size tag the buffer
is resized to the block length via `set_size` (otherwise the length must
match the fixed size exactly); then the empty-block early return, the F32
check and the raw transfer follow in `wbSetRest`. -/
def wbSet (c : Circuit) (b : DSPBuf) (data : List ℚ) : SetResult :=
  let size := data.length
  if (size : ℤ) > b.size_max then
    ⟨c, b, none, Except.error (.dspError "Cannot write samples to buffer")⟩
  else
    match b.size_tag with
    | some _ =>
      match set_size c b (size : ℤ) with
      | (c2, b2, Except.error e) => ⟨c2, b2, none, Except.error e⟩
      | (c2, b2, Except.ok _) => wbSetRest c2 b2 data
    | none =>
      if (size : ℤ) ≠ b.size then
        ⟨c, b, none, Except.error (.dspError "Buffer size cannot be configured")⟩
      else wbSetRest c b data

/-- Hardware interactions performed by the acquisition driver. -/
inductive AcqEvent where
  | resetRead
  | trig (t : Nat)
  | readEv (n : Nat)
deriving DecidableEq, Repr

/-- Poll loop of `DSPBuffer._acquire`: while the end condition on the
accumulated sample count is false, perform one `read()` and accumulate.  The
device is abstracted by the oracle `reads`, giving the number of
samples-per-channel returned by the k-th hardware read; `fuel` bounds the
number of iterations modelled.  Returns the events, the next read counter
and the accumulated sample count. -/
def acquirePollLoop (endCond : Nat → Bool) (reads : Nat → Nat) :
    Nat → Nat → Nat → List AcqEvent × Nat × Nat
  | 0, k, acc => ([], k, acc)
  | fuel + 1, k, acc =>
    if endCond acc then ([], k, acc)
    else
      let n := reads k
      let rest := acquirePollLoop endCond reads fuel (k + 1) (acc + n)
      (AcqEvent.readEv n :: rest.1, rest.2)

/-- Trial loop of `DSPBuffer._acquire`: per trial, optionally reset the read
cursor, fire the trigger, run the poll loop, and issue the final draining
read. -/
def acquireTrials (trigger : Nat) (endCond : Nat → Bool) (reads : Nat → Nat)
    (reset_read : Bool) (fuel : Nat) : Nat → Nat → List AcqEvent
  | 0, _ => []
  | trials + 1, k =>
    let pre := if reset_read then [AcqEvent.resetRead] else []
    let loop := acquirePollLoop endCond reads fuel k 0
    let drain := reads loop.2.1
    pre ++ (AcqEvent.trig trigger :: loop.1) ++ [AcqEvent.readEv drain] ++
      acquireTrials trigger endCond reads reset_read fuel trials (loop.2.1 + 1)

/-- `DSPBuffer.acquire_samples`: fire a trigger and acquire `samples`
samples per trial.  A sample count that is not a multiple of the block size
is rejected up front, before any hardware interaction; otherwise `_acquire`
runs with the count-based end condition.  The event list records every
hardware interaction performed. -/
def acquire_samples (block_size : Nat) (trigger samples trials : Nat)
    (reads : Nat → Nat) (reset_read : Bool) (fuel : Nat) :
    List AcqEvent × Except String Unit :=
  if samples % block_size ≠ 0 then
    ([], Except.error "Number of samples must be a multiple of block size")
  else
    (acquireTrials trigger (fun s => decide (samples ≤ s)) reads reset_read fuel trials 0,
      Except.ok ())

theorem pyRoundDiv_zero (b : ℕ) : pyRoundDiv 0 b = 0 := by
  rcases Nat.eq_zero_or_pos b with hb | hb
  · subst hb
    rfl
  · unfold pyRoundDiv
    rw [if_neg (by omega)]
    simp only [Int.zero_fdiv, zero_mul, zero_sub, neg_zero, mul_zero]
    rw [if_pos (by omega)]

theorem Circuit.set_tag_setOk (c : Circuit) (t : String) (v : Int) :
    (c.set_tag t v).setTagValOk = c.setTagValOk := rfl

theorem Circuit.set_tag_writeOk (c : Circuit) (t : String) (v : Int) :
    (c.set_tag t v).writeTagVOk = c.writeTagVOk := rfl

/-! ## Concrete fixtures

Small concrete circuits and the buffers constructed on them, used to
instantiate the hypotheses of the claim theorems. -/

/-- Fallback circuit for the error case of result extraction. -/
def emptyCircuit : Circuit where
  tags := []
  tagValues := fun _ => 0
  tagSizes := fun _ => 0
  fs := 0
  setTagValOk := fun _ => true
  writeTagVOk := fun _ => true
  readTagVEX := fun _ _ _ => []

/-- Fallback buffer state for the error case of result extraction. -/
def junkBuf : DSPBuf where
  data_tag := ""
  idx_tag := none
  size_tag := none
  sf_tag := none
  cycle_tag := none
  dec_tag := none
  channels := 0
  block_size := 0
  sf := 0
  dec_factor := 0
  fs := 0
  src_type := NPDType.float32
  dest_type := NPDType.float32
  compression := 0
  vex_src_type := ""
  vex_dest_type := ""
  resolution := 0
  n_slots := 0
  n_slots_max := 0
  n_samples := 0
  n_samples_max := 0
  size := 0
  size_max := 0
  sample_time := 0
  max_sample_time := 0
  total_samples_written := 0

/-- A minimal circuit: buffer tag `d` with the required companions `d_n`
(value 1000) and `d_i` only. -/
def cMin : Circuit where
  tags := [("d", RCX_BUFFER), ("d_n", 0), ("d_i", 0)]
  tagValues := fun s => if s = "d_n" then 1000 else 0
  tagSizes := fun s => if s = "d" then 1000 else 0
  fs := 390625 / 4
  setTagValOk := fun _ => true
  writeTagVOk := fun _ => true
  readTagVEX := fun _ _ _ => []

/-- The circuit and buffer produced by constructing on `cMin` with one
channel and float32 data. -/
def pMin : Circuit × DSPBuf :=
  exceptOkD (emptyCircuit, junkBuf)
    (dspBufferInit cMin "d" none none none none none 1 NPDType.float32 NPDType.float32 1 none)

theorem init_cMin :
    dspBufferInit cMin "d" none none none none none 1 NPDType.float32 NPDType.float32 1 none =
      Except.ok (pMin.1, pMin.2) := rfl

/-- A fully equipped circuit: buffer tag `d` with all five companion tags;
`d_n` is 1000, the scaling factor 2 and the decimation register 2. -/
def cFull : Circuit where
  tags := [("d", RCX_BUFFER), ("d_n", 0), ("d_i", 0), ("d_sf", 0), ("d_c", 0), ("d_d", 0)]
  tagValues := fun s => if s = "d_n" then 1000 else if s = "d_sf" then 2 else if s = "d_d" then 2 else 0
  tagSizes := fun s => if s = "d" then 1000 else 0
  fs := 390625 / 4
  setTagValOk := fun _ => true
  writeTagVOk := fun _ => true
  readTagVEX := fun _ _ _ => []

/-- Construction on `cFull` with two int16 channels and no decimation
request. -/
def pFullN : Circuit × DSPBuf :=
  exceptOkD (emptyCircuit, junkBuf)
    (dspBufferInit cFull "d" none none none none none 1 NPDType.int16 NPDType.float32 2 none)

theorem init_cFullN :
    dspBufferInit cFull "d" none none none none none 1 NPDType.int16 NPDType.float32 2 none =
      Except.ok (pFullN.1, pFullN.2) := rfl

/-- Construction on `cFull` with an explicit decimation factor of 8. -/
def pFull8 : Circuit × DSPBuf :=
  exceptOkD (emptyCircuit, junkBuf)
    (dspBufferInit cFull "d" none none none none none 1 NPDType.int16 NPDType.float32 2 (some 8))

theorem init_cFull8 :
    dspBufferInit cFull "d" none none none none none 1 NPDType.int16 NPDType.float32 2 (some 8) =
      Except.ok (pFull8.1, pFull8.2) := rfl

/-- Like `cMin`, but with 1001 slots: not a multiple of two channels. -/
def cBad : Circuit where
  tags := [("d", RCX_BUFFER), ("d_n", 0), ("d_i", 0)]
  tagValues := fun s => if s = "d_n" then 1001 else 0
  tagSizes := fun s => if s = "d" then 1001 else 0
  fs := 390625 / 4
  setTagValOk := fun _ => true
  writeTagVOk := fun _ => true
  readTagVEX := fun _ _ _ => []

/-- Buffer tag and index tag only: the size companion `d_n` is missing. -/
def cNoSize : Circuit where
  tags := [("d", RCX_BUFFER), ("d_i", 0)]
  tagValues := fun _ => 0
  tagSizes := fun s => if s = "d" then 1000 else 0
  fs := 390625 / 4
  setTagValOk := fun _ => true
  writeTagVOk := fun _ => true
  readTagVEX := fun _ _ _ => []

/-- Buffer tag and size tag only: the index companion `d_i` is missing. -/
def cNoIdx : Circuit where
  tags := [("d", RCX_BUFFER), ("d_n", 0)]
  tagValues := fun s => if s = "d_n" then 1000 else 0
  tagSizes := fun s => if s = "d" then 1000 else 0
  fs := 390625 / 4
  setTagValOk := fun _ => true
  writeTagVOk := fun _ => true
  readTagVEX := fun _ _ _ => []

/-- Circuit for the `set` scenarios: a writeable buffer `x` with size tag
`x_n` currently holding 5 slots. -/
def cSet : Circuit where
  tags := [("x", RCX_BUFFER), ("x_n", 0), ("x_i", 0)]
  tagValues := fun s => if s = "x_n" then 5 else 0
  tagSizes := fun s => if s = "x" then 10 else 0
  fs := 390625 / 4
  setTagValOk := fun _ => true
  writeTagVOk := fun _ => true
  readTagVEX := fun _ _ _ => []

/-- A writeable float32 buffer on `cSet`: one channel, compression 1,
current size 5, maximum size 10. -/
def bSet : DSPBuf where
  data_tag := "x"
  idx_tag := some "x_i"
  size_tag := some "x_n"
  sf_tag := none
  cycle_tag := none
  dec_tag := none
  channels := 1
  block_size := 1
  sf := 1
  dec_factor := 1
  fs := 390625 / 4
  src_type := NPDType.float32
  dest_type := NPDType.float32
  compression := 1
  vex_src_type := "F32"
  vex_dest_type := "F32"
  resolution := 1 / 1000000
  n_slots := 5
  n_slots_max := 10
  n_samples := 5
  n_samples_max := 10
  size := 5
  size_max := 10
  sample_time := 0
  max_sample_time := 0
  total_samples_written := 0

/-- Like `bSet`, but with an int16 native representation (vex type `I16`),
for exercising the non-float `set` path. -/
def bSetI16 : DSPBuf :=
  { bSet with src_type := NPDType.int16, vex_src_type := "I16" }

/-! ## Claims -/

/-- Claim C1: for a readable buffer, whenever the hardware-reported
cumulative write position has advanced more than `perChannelCapacity`
samples-per-channel past the local read position since the last read,
`read()` fails with the unrecoverable read-overrun error ("Read was too
slow and unread samples were overwritten") instead of returning stale data,
and — the cursor having been realigned to the hardware position — the
buffer remains usable: a subsequent read whose advance stays within
capacity succeeds. -/
theorem claim_C1 (c : Circuit) (b : DSPBuf) (cap loc hw hw2 : Nat)
    (h1 : loc ≤ hw) (h2 : cap < hw - loc) (h3 : hw ≤ hw2) (h4 : hw2 - hw ≤ cap) :
    ringRead c b cap loc hw =
      (hw, Except.error (.overrun "Read was too slow and unread samples were overwritten")) ∧
    (ringRead c b cap hw hw2).2 =
      Except.ok (readable_read c b (hw % cap) (hw2 - hw)) := by
  constructor
  · unfold ringRead
    rw [if_pos (by omega)]
  · unfold ringRead
    rw [if_neg (by omega)]
    have h0 : ((hw2 : ℤ) - (hw : ℤ)).toNat = hw2 - hw := by omega
    rw [h0]

/-- Witness for C1: capacity 1000, cursor 0, hardware at 2001 overruns;
the follow-up read at hardware position 2500 succeeds. -/
theorem claim_C1_witness :
    ringRead cMin pMin.2 1000 0 2001 =
      (2001, Except.error (.overrun "Read was too slow and unread samples were overwritten")) ∧
    (ringRead cMin pMin.2 1000 2001 2500).2 =
      Except.ok (readable_read cMin pMin.2 (2001 % 1000) (2500 - 2001)) :=
  claim_C1 cMin pMin.2 1000 0 2001 2500 (by decide) (by decide) (by decide) (by decide)

/-- Claim C2, counterexample to the second half of the claim as stated: on
a capacity-1000 buffer that has never been written (0 samples written), the
first write after a trigger (hardware position 1) of a 1-sample block
succeeds rather than raising the write-overrun error. -/
theorem claim_C2_counterexample :
    ringWrite 1000 0 1 1 = (1, Except.ok ()) := rfl

/-- Claim C2 as amended: `write` fails with the unrecoverable write-overrun
error ("Write was too slow and old samples were regenerated") exactly when
the span between the writer's last-written position and the hardware's
playback position, plus the block length, exceeds `perChannelCapacity`; in
particular the first write after a trigger on a never-written buffer raises
the error whenever the hardware position plus the block length exceeds the
capacity — e.g. any write of at least a full buffer once the hardware has
advanced; and a write within capacity succeeds and advances the written
count. -/
theorem claim_C2 (cap w hw n hw2 n2 w3 hw3 n3 : Nat)
    (hb1 : 1 ≤ hw2) (hb2 : cap ≤ n2)
    (hs : (hw3 : ℤ) - (w3 : ℤ) + (n3 : ℤ) ≤ (cap : ℤ)) :
    ((ringWrite cap w hw n).2 =
        Except.error (.overrun "Write was too slow and old samples were regenerated") ↔
      (cap : ℤ) < (hw : ℤ) - (w : ℤ) + (n : ℤ)) ∧
    (ringWrite cap 0 hw2 n2).2 =
      Except.error (.overrun "Write was too slow and old samples were regenerated") ∧
    ringWrite cap w3 hw3 n3 = (w3 + n3, Except.ok ()) := by
  refine ⟨?_, ?_, ?_⟩
  · unfold ringWrite
    split
    · rename_i hc
      exact iff_of_true rfl (by omega)
    · rename_i hc
      exact iff_of_false (by simp) (by omega)
  · unfold ringWrite
    rw [if_pos (by omega)]
  · unfold ringWrite
    rw [if_neg (by omega)]

/-- Witness for C2 (amended) at concrete inputs: capacity 1000; the overrun
criterion instantiated at written 1000, hardware 2001, block 1000; the
scenario-B write of a full buffer at hardware position 1 on a fresh buffer;
and a successful initial full-buffer write at hardware position 0. -/
theorem claim_C2_witness :
    ((ringWrite 1000 1000 2001 1000).2 =
        Except.error (.overrun "Write was too slow and old samples were regenerated") ↔
      (1000 : ℤ) < (2001 : ℤ) - (1000 : ℤ) + (1000 : ℤ)) ∧
    (ringWrite 1000 0 1 1000).2 =
      Except.error (.overrun "Write was too slow and old samples were regenerated") ∧
    ringWrite 1000 0 0 1000 = (0 + 1000, Except.ok ()) :=
  claim_C2 1000 1000 2001 1000 1 1000 0 0 1000 (by decide) (by decide) (by decide)

/-- Claim C7: reading when zero new samples are available (hardware position
equal to the local cursor) returns a zero-length block of the destination
dtype shaped channels × 0, and does not raise. -/
theorem claim_C7 (c : Circuit) (b : DSPBuf) (cap loc : Nat) :
    (ringRead c b cap loc loc).2 =
      Except.ok { dtype := b.dest_type, rows := List.replicate b.channels ([] : List ℚ) } ∧
    (List.replicate b.channels ([] : List ℚ)).length = b.channels := by
  constructor
  · unfold ringRead
    rw [if_neg (by omega)]
    have h0 : ((loc : ℤ) - (loc : ℤ)).toNat = 0 := by omega
    rw [h0]
    rfl
  · exact List.length_replicate _ _

/-- Claim C8: `acquire_samples` with a sample count that is not a multiple
of the block size fails immediately, with an empty hardware-interaction
trace: no trigger is issued and no read is performed. -/
theorem claim_C8 (block_size trigger samples trials : Nat)
    (reads : Nat → Nat) (reset_read : Bool) (fuel : Nat)
    (h : samples % block_size ≠ 0) :
    acquire_samples block_size trigger samples trials reads reset_read fuel =
      ([], Except.error "Number of samples must be a multiple of block size") := by
  unfold acquire_samples
  rw [if_pos h]

/-- Witness for C8: block size 100, 250 requested samples. -/
theorem claim_C8_witness :
    acquire_samples 100 1 250 1 (fun _ => 100) true 1000 =
      ([], Except.error "Number of samples must be a multiple of block size") :=
  claim_C8 100 1 250 1 (fun _ => 100) true 1000 (by decide)

/-- Claim C3: every successfully constructed buffer satisfies
`n_slots mod channels = 0`, and a construction whose slot capacity (the
value of the resolved size tag) is not a multiple of the channel count
never succeeds. -/
theorem claim_C3 (c : Circuit) (data_tag : String)
    (idx_tag size_tag sf_tag cycle_tag dec_tag : Option String)
    (block_size : Nat) (src_type dest_type : NPDType) (channels : Nat)
    (dec_factor : Option Int) (c2 : Circuit) (b : DSPBuf)
    (hok : dspBufferInit c data_tag idx_tag size_tag sf_tag cycle_tag dec_tag
      block_size src_type dest_type channels dec_factor = Except.ok (c2, b))
    (cb : Circuit) (dt2 : String) (it2 st2 ft2 yt2 dt2' : Option String)
    (bs2 : Nat) (srcT2 dstT2 : NPDType) (ch2 : Nat)
    (hbad : cb.get_tag (st2.getD (dt2 ++ "_n")) % (ch2 : ℤ) ≠ 0) :
    b.n_slots % (b.channels : ℤ) = 0 ∧
    exceptIsOk (dspBufferInit cb dt2 it2 st2 ft2 yt2 dt2' bs2 srcT2 dstT2 ch2 none) = false := by
  constructor
  · obtain ⟨size_t, idx_t, sf_t, cycle_t, dec_t, vexS, vexD, res,
      hsize, hidx, hsf, hcy, hde, hstep, hvs, hvd, hrs, hcheck, hb⟩ := dspBufferInit_ok_inv hok
    subst hb
    have hch : ({ initBuf c c2 data_tag idx_t size_t sf_t cycle_t dec_t block_size src_type dest_type channels with
        vex_src_type := vexS, vex_dest_type := vexD, resolution := res } : DSPBuf).channels = channels := by
      simp [initBuf, update_size]
    rw [hch]
    simpa [initBuf, update_size] using hcheck
  · cases hres : dspBufferInit cb dt2 it2 st2 ft2 yt2 dt2' bs2 srcT2 dstT2 ch2 none with
    | error e => rfl
    | ok p =>
      obtain ⟨size_t, idx_t, sf_t, cycle_t, dec_t, vexS, vexD, res,
        hsize, hidx, hsf, hcy, hde, hstep, hvs, hvd, hrs, hcheck, hb⟩ :=
        dspBufferInit_ok_inv hres
      obtain ⟨hst, hhas⟩ := find_tag_req_ok hsize
      subst hst
      rw [initDecStep_none] at hstep
      have hpc : p.1 = cb := by
        injection hstep with h
        exact h.symm
      rw [hpc] at hcheck
      have hns : (initBuf cb cb dt2 idx_t (some (st2.getD (dt2 ++ "_n"))) sf_t cycle_t dec_t bs2 srcT2 dstT2 ch2).n_slots =
          cb.get_tag (st2.getD (dt2 ++ "_n")) := by
        simp [initBuf, update_size]
      rw [hns] at hcheck
      exact absurd hcheck hbad

/-- Witness for C3: the successful `cMin` construction and the two-channel
1001-slot configuration `cBad`, whose construction fails. -/
theorem claim_C3_witness :
    pMin.2.n_slots % (pMin.2.channels : ℤ) = 0 ∧
    exceptIsOk (dspBufferInit cBad "d" none none none none none 1 NPDType.float32 NPDType.float32 2 none) = false :=
  claim_C3 cMin "d" none none none none none 1 NPDType.float32 NPDType.float32 1 none
    pMin.1 pMin.2 init_cMin
    cBad "d" none none none none none 1 NPDType.float32 NPDType.float32 2 (by decide)

/-- Claim C4, counterexample: on a circuit that has the data tag and the
index companion but no size companion, construction fails — the size tag is
required, contradicting the claim that only a missing index tag is fatal. -/
theorem claim_C4_counterexample :
    dspBufferInit cNoSize "d" none none none none none 1 NPDType.float32 NPDType.float32 1 none =
      Except.error (.valueError "size tag for d must be present in circuit") := rfl

/-- Claim C4 as amended: a missing index companion tag or a missing size
companion tag is each a fatal configuration error; a missing scale, cycle
or decimation companion degrades gracefully: the scaling factor defaults to
1, cycle tracking is disabled (no cycle tag is recorded) and the decimation
factor is reported as 1. -/
theorem claim_C4 (cA : Circuit) (dtA : String) (iA sA fA yA dA : Option String)
    (bsA : Nat) (srcA dstA : NPDType) (chA : Nat) (dfA : Option Int)
    (hA : ¬ cA.hasTag (iA.getD (dtA ++ "_i")) = true)
    (cB : Circuit) (dtB : String) (iB sB fB yB dB : Option String)
    (bsB : Nat) (srcB dstB : NPDType) (chB : Nat) (dfB : Option Int)
    (hB : ¬ cB.hasTag (sB.getD (dtB ++ "_n")) = true)
    (cC : Circuit) (dtC : String) (iC sC fC yC dC : Option String)
    (bsC : Nat) (srcC dstC : NPDType) (chC : Nat) (c2 : Circuit) (b : DSPBuf)
    (hCsf : ¬ cC.hasTag (fC.getD (dtC ++ "_sf")) = true)
    (hCcy : ¬ cC.hasTag (yC.getD (dtC ++ "_c")) = true)
    (hCde : ¬ cC.hasTag (dC.getD (dtC ++ "_d")) = true)
    (hok : dspBufferInit cC dtC iC sC fC yC dC bsC srcC dstC chC none = Except.ok (c2, b)) :
    exceptIsOk (dspBufferInit cA dtA iA sA fA yA dA bsA srcA dstA chA dfA) = false ∧
    exceptIsOk (dspBufferInit cB dtB iB sB fB yB dB bsB srcB dstB chB dfB) = false ∧
    b.sf = 1 ∧ b.cycle_tag = none ∧ b.dec_factor = 1 ∧ b.dec_tag = none := by
  refine ⟨?_, ?_, ?_⟩
  · cases hres : dspBufferInit cA dtA iA sA fA yA dA bsA srcA dstA chA dfA with
    | error e => rfl
    | ok p =>
      obtain ⟨size_t, idx_t, sf_t, cycle_t, dec_t, vexS, vexD, res,
        hsize, hidx, hsf, hcy, hde, hstep, hvs, hvd, hrs, hcheck, hb⟩ :=
        dspBufferInit_ok_inv hres
      obtain ⟨hit, hhas⟩ := find_tag_req_ok hidx
      exact absurd hhas hA
  · cases hres : dspBufferInit cB dtB iB sB fB yB dB bsB srcB dstB chB dfB with
    | error e => rfl
    | ok p =>
      obtain ⟨size_t, idx_t, sf_t, cycle_t, dec_t, vexS, vexD, res,
        hsize, hidx, hsf, hcy, hde, hstep, hvs, hvd, hrs, hcheck, hb⟩ :=
        dspBufferInit_ok_inv hres
      obtain ⟨hst, hhas⟩ := find_tag_req_ok hsize
      exact absurd hhas hB
  · obtain ⟨size_t, idx_t, sf_t, cycle_t, dec_t, vexS, vexD, res,
      hsize, hidx, hsf, hcy, hde, hstep, hvs, hvd, hrs, hcheck, hb⟩ :=
      dspBufferInit_ok_inv hok
    rw [find_tag_opt_missing hCsf] at hsf
    rw [find_tag_opt_missing hCcy] at hcy
    rw [find_tag_opt_missing hCde] at hde
    have hsf' : sf_t = none := by injection hsf with h; exact h.symm
    have hcy' : cycle_t = none := by injection hcy with h; exact h.symm
    have hde' : dec_t = none := by injection hde with h; exact h.symm
    subst hsf'
    subst hcy'
    subst hde'
    subst hb
    refine ⟨?_, ?_, ?_, ?_⟩ <;> simp [initBuf, update_size, get_tag_default]

/-- Witness for C4 (amended): `cNoIdx` (missing index tag) and `cNoSize`
(missing size tag) both fail; the minimal circuit `cMin` constructs with
scaling factor 1, no cycle tag and decimation factor 1. -/
theorem claim_C4_witness :
    exceptIsOk (dspBufferInit cNoIdx "d" none none none none none 1 NPDType.float32 NPDType.float32 1 none) = false ∧
    exceptIsOk (dspBufferInit cNoSize "d" none none none none none 1 NPDType.float32 NPDType.float32 1 none) = false ∧
    pMin.2.sf = 1 ∧ pMin.2.cycle_tag = none ∧ pMin.2.dec_factor = 1 ∧ pMin.2.dec_tag = none :=
  claim_C4 cNoIdx "d" none none none none none 1 NPDType.float32 NPDType.float32 1 none (by decide)
    cNoSize "d" none none none none none 1 NPDType.float32 NPDType.float32 1 none (by decide)
    cMin "d" none none none none none 1 NPDType.float32 NPDType.float32 1 pMin.1 pMin.2
    (by decide) (by decide) (by decide) init_cMin

/-- Claim C5: for every constructed buffer, `compression` is the native
4-byte word size divided by the source element size and is one of 1, 2, 4;
`n_samples = n_slots * compression`; the per-channel `size` is exactly
`n_samples / channels`; and the effective rate `fs` is the device rate
divided by the decimation factor. -/
theorem claim_C5 (c : Circuit) (data_tag : String)
    (idx_tag size_tag sf_tag cycle_tag dec_tag : Option String)
    (block_size : Nat) (src_type dest_type : NPDType) (channels : Nat)
    (dec_factor : Option Int) (c2 : Circuit) (b : DSPBuf)
    (hok : dspBufferInit c data_tag idx_tag size_tag sf_tag cycle_tag dec_tag
      block_size src_type dest_type channels dec_factor = Except.ok (c2, b)) :
    b.compression = 4 / src_type.nbytes ∧
    (b.compression = 1 ∨ b.compression = 2 ∨ b.compression = 4) ∧
    b.n_samples = b.n_slots * (b.compression : ℤ) ∧
    ((b.size : ℤ) : ℚ) = ((b.n_samples : ℤ) : ℚ) / ((b.channels : ℕ) : ℚ) ∧
    b.fs = c.fs / ((b.dec_factor : ℤ) : ℚ) := by
  obtain ⟨size_t, idx_t, sf_t, cycle_t, dec_t, vexS, vexD, res,
    hsize, hidx, hsf, hcy, hde, hstep, hvs, hvd, hrs, hcheck, hb⟩ :=
    dspBufferInit_ok_inv hok
  have hcomp4 := compression_of_type_str hvs
  have hfs2 := initDecStep_fs hstep
  subst hb
  refine ⟨?_, ?_, ?_, ?_, ?_⟩
  · simp [initBuf, update_size]
  · simpa [initBuf, update_size] using hcomp4
  · simp [initBuf, update_size]
  · have hdvd : ((channels : ℕ) : ℤ) ∣
        (initBuf c c2 data_tag idx_t size_t sf_t cycle_t dec_t block_size src_type dest_type channels).n_slots *
          ((4 / src_type.nbytes : ℕ) : ℤ) := by
      apply Dvd.dvd.mul_right
      exact Int.dvd_of_emod_eq_zero hcheck
    have hcast := pyRoundDiv_cast_of_dvd
      ((initBuf c c2 data_tag idx_t size_t sf_t cycle_t dec_t block_size src_type dest_type channels).n_slots *
        ((4 / src_type.nbytes : ℕ) : ℤ)) channels hdvd
    simpa [initBuf, update_size] using hcast
  · rw [← hfs2]
    simp [initBuf, update_size]

/-- Witness for C5: the two-channel int16 construction on `cFull`. -/
theorem claim_C5_witness :
    pFullN.2.compression = 4 / NPDType.int16.nbytes ∧
    (pFullN.2.compression = 1 ∨ pFullN.2.compression = 2 ∨ pFullN.2.compression = 4) ∧
    pFullN.2.n_samples = pFullN.2.n_slots * (pFullN.2.compression : ℤ) ∧
    ((pFullN.2.size : ℤ) : ℚ) = ((pFullN.2.n_samples : ℤ) : ℚ) / ((pFullN.2.channels : ℕ) : ℚ) ∧
    pFullN.2.fs = cFull.fs / ((pFullN.2.dec_factor : ℤ) : ℚ) :=
  claim_C5 cFull "d" none none none none none 1 NPDType.int16 NPDType.float32 2 none
    pFullN.1 pFullN.2 init_cFullN

/-- Claim C6: requesting an explicit decimation factor at construction
writes it to the decimation tag when that tag exists (a successful
construction reports it back as the decimation factor, and the tag holds
it); when no decimation tag exists, construction fails for every requested
factor other than 1; and a requested factor of 1 without a tag is a no-op
(the construction is identical to not requesting a factor at all). -/
theorem claim_C6 (c : Circuit) (data_tag : String)
    (idx_tag size_tag sf_tag cycle_tag dec_tag : Option String)
    (block_size : Nat) (src_type dest_type : NPDType) (channels : Nat)
    (d : Int) (t : String) (c2 : Circuit) (b : DSPBuf)
    (hdec : find_tag c data_tag dec_tag "_d" false "decimation" = Except.ok (some t))
    (hok : dspBufferInit c data_tag idx_tag size_tag sf_tag cycle_tag dec_tag
      block_size src_type dest_type channels (some d) = Except.ok (c2, b))
    (cB : Circuit) (dtB : String) (iB sB fB yB dB : Option String)
    (bsB : Nat) (srcB dstB : NPDType) (chB : Nat) (dB' : Int)
    (hdecB : find_tag cB dtB dB "_d" false "decimation" = Except.ok none)
    (hdB : dB' ≠ 1)
    (cC : Circuit) (dtC : String) (iC sC fC yC dC : Option String)
    (bsC : Nat) (srcC dstC : NPDType) (chC : Nat)
    (hdecC : find_tag cC dtC dC "_d" false "decimation" = Except.ok none) :
    (b.dec_factor = d ∧ c2.get_tag t = d ∧ b.dec_tag = some t) ∧
    exceptIsOk (dspBufferInit cB dtB iB sB fB yB dB bsB srcB dstB chB (some dB')) = false ∧
    dspBufferInit cC dtC iC sC fC yC dC bsC srcC dstC chC (some 1) =
      dspBufferInit cC dtC iC sC fC yC dC bsC srcC dstC chC none := by
  refine ⟨?_, ?_, ?_⟩
  · obtain ⟨size_t, idx_t, sf_t, cycle_t, dec_t, vexS, vexD, res,
      hsize, hidx, hsf, hcy, hde, hstep, hvs, hvd, hrs, hcheck, hb⟩ :=
      dspBufferInit_ok_inv hok
    rw [hdec] at hde
    have hde' : dec_t = some t := by injection hde with h; exact h.symm
    subst hde'
    have hc2 : c2 = c.set_tag t d := by
      simp only [initDecStep] at hstep
      injection hstep with h
      exact h.symm
    subst hb
    subst hc2
    refine ⟨?_, ?_, ?_⟩
    · simp [initBuf, update_size, get_tag_default, Circuit.get_set_tag]
    · exact Circuit.get_set_tag c t d
    · simp [initBuf, update_size]
  · cases hres : dspBufferInit cB dtB iB sB fB yB dB bsB srcB dstB chB (some dB') with
    | error e => rfl
    | ok p =>
      obtain ⟨size_t, idx_t, sf_t, cycle_t, dec_t, vexS, vexD, res,
        hsize, hidx, hsf, hcy, hde, hstep, hvs, hvd, hrs, hcheck, hb⟩ :=
        dspBufferInit_ok_inv hres
      rw [hdecB] at hde
      have hde' : dec_t = none := by injection hde with h; exact h.symm
      subst hde'
      simp only [initDecStep] at hstep
      rw [if_pos hdB] at hstep
      simp at hstep
  · unfold dspBufferInit
    rw [hdecC]
    rfl

/-- Witness for C6: on `cFull` the factor 8 is written to `d_d` and read
back; on `cMin` (no decimation tag) a request of 8 fails and a request of 1
is the same construction as no request. -/
theorem claim_C6_witness :
    (pFull8.2.dec_factor = 8 ∧ pFull8.1.get_tag "d_d" = 8 ∧ pFull8.2.dec_tag = some "d_d") ∧
    exceptIsOk (dspBufferInit cMin "d" none none none none none 1 NPDType.float32 NPDType.float32 1 (some 8)) = false ∧
    dspBufferInit cMin "d" none none none none none 1 NPDType.float32 NPDType.float32 1 (some 1) =
      dspBufferInit cMin "d" none none none none none 1 NPDType.float32 NPDType.float32 1 none := by
  have h := claim_C6 cFull "d" none none none none none 1 NPDType.int16 NPDType.float32 2
    8 "d_d" pFull8.1 pFull8.2 rfl init_cFull8
    cMin "d" none none none none none 1 NPDType.float32 NPDType.float32 1 8 rfl (by decide)
    cMin "d" none none none none none 1 NPDType.float32 NPDType.float32 1 rfl
  exact ⟨⟨h.1.1, h.1.2.1, h.1.2.2⟩, h.2.1, h.2.2⟩

/-- Claim C9, counterexample: `set` with an empty block on a buffer whose
current size is 5 completes without error but is not a no-op — the buffer
is first resized to length 0, changing both the device size tag and the
local size bookkeeping. -/
theorem claim_C9_counterexample :
    (wbSet cSet bSet []).result = Except.ok () ∧
    cSet.get_tag "x_n" = 5 ∧ (wbSet cSet bSet []).circuit.get_tag "x_n" = 0 ∧
    bSet.size = 5 ∧ (wbSet cSet bSet []).buf.size = 0 :=
  ⟨rfl, rfl, rfl, rfl, rfl⟩

/-- Claim C9 as amended: `set` with an empty block completes without error,
issues no data write and leaves `total_samples_written` unchanged, but it
first resizes the buffer to length 0 through the size tag: the size-tag
register and the local slot/size bookkeeping become 0. -/
theorem claim_C9 (c : Circuit) (b : DSPBuf) (t : String)
    (ht : b.size_tag = some t) (hset : c.setTagValOk t = true) (hsm : 0 ≤ b.size_max) :
    (wbSet c b []).result = Except.ok () ∧
    (wbSet c b []).dataWritten = none ∧
    (wbSet c b []).buf.total_samples_written = b.total_samples_written ∧
    (wbSet c b []).circuit.get_tag t = 0 ∧
    (wbSet c b []).buf.n_slots = 0 ∧
    (wbSet c b []).buf.size = 0 := by
  have hns : ¬ (b.size_max < (0 : ℤ)) := not_lt.mpr hsm
  refine ⟨?_, ?_, ?_, ?_, ?_, ?_⟩ <;>
    simp [wbSet, set_size, wbSetRest, ht, hset, hns, update_size, pyRoundDiv_zero,
      Circuit.set_tag, Circuit.get_tag]

/-- Witness for C9 (amended) on the concrete `cSet`/`bSet` fixture. -/
theorem claim_C9_witness :
    (wbSet cSet bSet []).result = Except.ok () ∧
    (wbSet cSet bSet []).dataWritten = none ∧
    (wbSet cSet bSet []).buf.total_samples_written = bSet.total_samples_written ∧
    (wbSet cSet bSet []).circuit.get_tag "x_n" = 0 ∧
    (wbSet cSet bSet []).buf.n_slots = 0 ∧
    (wbSet cSet bSet []).buf.size = 0 :=
  claim_C9 cSet bSet "x_n" rfl rfl (by decide)

/-- Claim C10: when `set(block)` fails after its size validation — because
the native representation is not 32-bit float, or because the raw device
write reports failure — on a buffer with a size tag, the buffer length has
already been set to `len(block)` before the error is raised: `set` does not
leave device state unchanged on error. -/
theorem claim_C10 (c : Circuit) (b : DSPBuf) (t : String) (data : List ℚ)
    (ht : b.size_tag = some t) (hset : c.setTagValOk t = true)
    (hlen : ((data.length : ℕ) : ℤ) ≤ b.size_max) (hpos : data.length ≠ 0)
    (hbad : b.vex_src_type ≠ "F32" ∨ c.writeTagVOk b.data_tag = false) :
    exceptIsOk (wbSet c b data).result = false ∧
    (wbSet c b data).circuit.get_tag t = ((data.length : ℕ) : ℤ) := by
  have hns : ¬ (b.size_max < ((data.length : ℕ) : ℤ)) := not_lt.mpr hlen
  by_cases hv : b.vex_src_type = "F32"
  · have hw : c.writeTagVOk b.data_tag = false := by
      rcases hbad with hb1 | hb2
      · exact absurd hv hb1
      · exact hb2
    constructor <;>
      simp [wbSet, set_size, wbSetRest, ht, hset, hns, hv, hpos, hw, update_size,
        Circuit.set_tag, Circuit.get_tag, exceptIsOk]
  · constructor <;>
      simp [wbSet, set_size, wbSetRest, ht, hset, hns, hv, hpos, update_size,
        Circuit.set_tag, Circuit.get_tag, exceptIsOk]

/-- Witness for C10: on the int16 buffer `bSetI16` a 3-sample `set` fails
with the unimplemented-representation error, yet the size tag now holds 3. -/
theorem claim_C10_witness :
    exceptIsOk (wbSet cSet bSetI16 ([1, 2, 3] : List ℚ)).result = false ∧
    (wbSet cSet bSetI16 ([1, 2, 3] : List ℚ)).circuit.get_tag "x_n" =
      ((([1, 2, 3] : List ℚ).length : ℕ) : ℤ) :=
  claim_C10 cSet bSetI16 "x_n" ([1, 2, 3] : List ℚ) rfl rfl (by decide) (by decide)
    (Or.inl (by decide))

end TDTpy
